import Mathlib

/-!
Shallow embedding of the SlapHard game engine
(`packages/engine/src/state.ts`, `packages/engine/src/deck.ts`,
`packages/engine/src/view.ts`) together with theorems checking the
natural-language specification against it.

Modelling conventions:
* JS numbers used as timestamps, offsets and sequence counters are `Int`;
  list indices, lengths, versions and the chant index are `Nat`.
* JS `Array.prototype.sort` with a comparator is modelled as a stable sort
  (`List.insertionSort`) by the relation "comparator result is non-positive".
* `String.prototype.localeCompare` is modelled as code-point lexicographic
  comparison (`strLe`), implemented structurally so it evaluates.
* Optional JS fields are `Option`; the non-null assertions (`!`) of the
  source are modelled with explicit defaults (`getD`) that are only
  exercised under the hypotheses of each theorem.
-/

namespace SlapHard

/-- Cards of the game (`packages/shared/src/constants.ts`). -/
inductive Card where
  | TACO | CAT | GOAT | CHEESE | PIZZA
  | GORILLA | NARWHAL | GROUNDHOG
deriving DecidableEq, Repr

def NORMAL_CARDS : List Card := [.TACO, .CAT, .GOAT, .CHEESE, .PIZZA]

def ACTION_CARDS : List Card := [.GORILLA, .NARWHAL, .GROUNDHOG]

def ALL_CARDS : List Card := NORMAL_CARDS ++ ACTION_CARDS

def CHANT_ORDER : List Card := NORMAL_CARDS

/-- From `deck.ts`: a card is an action card iff it is in `ACTION_CARDS`. -/
def isActionCard (c : Card) : Bool := ACTION_CARDS.contains c

/-- Default deck from `packages/engine/src/deck.ts`:
7 copies of each normal card and 4 copies of each action card. -/
def DEFAULT_DECK : List Card :=
  List.replicate 7 .TACO ++ List.replicate 7 .CAT ++ List.replicate 7 .GOAT ++
  List.replicate 7 .CHEESE ++ List.replicate 7 .PIZZA ++
  List.replicate 4 .GORILLA ++ List.replicate 4 .NARWHAL ++ List.replicate 4 .GROUNDHOG

inductive GameStatus where
  | IN_GAME | FINISHED
deriving DecidableEq, Repr

inductive SlapWindowReason where
  | MATCH | ACTION | SAME_CARD
deriving DecidableEq, Repr

inductive ErrorCode where
  | NOT_IN_GAME | SLAP_WINDOW_ACTIVE | NOT_YOUR_TURN
  | NO_SLAP_WINDOW | ALREADY_SLAPPED | INTERNAL_ERROR
deriving DecidableEq, Repr

inductive PenaltyType where
  | FALSE_SLAP | WRONG_GESTURE | TURN_TIMEOUT | NO_SLAPS
deriving DecidableEq, Repr

inductive SlapResultReason where
  | NO_SLAPS | NON_SLAPPER | LAST_SLAPPER | FIRST_VALID_SLAP_WIN
deriving DecidableEq, Repr

structure SlapAttempt where
  userId : String
  eventId : String
  gesture : Option Card
  clientSeq : Int
  clientTime : Int
  offsetMs : Int
  rttMs : Int
  receivedAtServerTime : Int
deriving DecidableEq, Repr

structure SlapWindowState where
  active : Bool
  eventId : Option String
  reason : Option SlapWindowReason
  actionCard : Option Card
  startServerTime : Option Int
  deadlineServerTime : Option Int
  slapWindowMs : Option Int
  flipperSeat : Option Nat
  receivedSlapsCount : Nat
  attempts : List SlapAttempt
  resolved : Bool
deriving DecidableEq, Repr

structure LastRevealed where
  card : Card
  chantWord : Card
  byUserId : String
  bySeatIndex : Nat
  atServerTime : Int
deriving DecidableEq, Repr

structure EnginePlayerState where
  userId : String
  displayName : String
  seatIndex : Nat
  connected : Bool
  ready : Bool
  hand : List Card
deriving DecidableEq, Repr

structure GameConfig where
  slapWindowMs : Int
  actionSlapWindowMs : Int
  turnTimeoutMs : Int
  minHumanMs : Int
deriving DecidableEq, Repr

structure GameState where
  status : GameStatus
  players : List EnginePlayerState
  currentTurnSeat : Nat
  chantIndex : Nat
  pile : List Card
  pileCount : Nat
  pileTopCard : Option Card
  lastRevealed : Option LastRevealed
  slapWindow : SlapWindowState
  winnerUserId : Option String
  version : Nat
  nextSlapEventNonce : Nat
  config : GameConfig
deriving DecidableEq, Repr

inductive EngineEvent where
  | FLIP (userId : String)
  | SLAP (userId eventId : String) (gesture : Option Card)
         (clientSeq clientTime offsetMs rttMs : Int)
  | RESOLVE_SLAP_WINDOW
  | TURN_TIMEOUT
  | SKIP_SLAP_WINDOW
deriving DecidableEq, Repr

inductive EngineEffect where
  | SLAP_WINDOW_OPEN (eventId : String) (reason : SlapWindowReason)
      (startServerTime deadlineServerTime slapWindowMs : Int) (actionCard : Option Card)
  | SLAP_RESULT (eventId : String) (orderedUserIds : List String)
      (loserUserId : String) (reason : SlapResultReason) (pileTaken : Nat)
  | PENALTY (userId : String) (penaltyType : PenaltyType) (pileTaken : Nat)
  | GAME_FINISHED (winnerUserId : String)
deriving DecidableEq, Repr

structure ServiceError where
  code : ErrorCode
  message : String
deriving DecidableEq, Repr

structure EngineResult where
  state : GameState
  effects : List EngineEffect
  error : Option ServiceError
deriving DecidableEq, Repr

/-! Helper functions from `state.ts`. -/

/-- Value stored by `resetSlapWindow`. -/
def emptySlapWindow : SlapWindowState :=
  { active := false, eventId := none, reason := none, actionCard := none,
    startServerTime := none, deadlineServerTime := none, slapWindowMs := none,
    flipperSeat := none, receivedSlapsCount := 0, attempts := [], resolved := true }

/-- From `state.ts`: hex encoding of the nonce, zero-padded to 12 characters,
with a fixed UUID-like prefix. -/
def deterministicEventId (nonce : Nat) : String :=
  let hex := Nat.toDigits 16 nonce
  let padded := List.replicate (12 - hex.length) '0' ++ hex
  let tail := padded.drop (padded.length - 12)
  "00000000-0000-4000-8000-" ++ String.mk tail

def advanceSeat (seat totalPlayers : Nat) : Nat := (seat + 1) % totalPlayers

/-- Length of the hand of the player at index `i` (0 when out of range,
matching the optional-chaining reads of the source). -/
def handLenAt (ps : List EnginePlayerState) (i : Nat) : Nat :=
  ((ps[i]?).map (fun p => p.hand.length)).getD 0

/-- The walk of `normalizeTurnSeat`: first seat after `cur` (in cyclic seat
order, up to `n - 1` steps) whose hand is non-empty. -/
def nextNonEmptySeat (ps : List EnginePlayerState) (cur : Nat) : Option Nat :=
  ((List.range ps.length).drop 1).findSome? (fun i =>
    let seat := (cur + i) % ps.length
    if 0 < handLenAt ps seat then some seat else none)

/-- From `state.ts`: outside an active window, move `currentTurnSeat` to the
next seat with a non-empty hand when the current seat's hand is empty. -/
def normalizeTurnSeat (s : GameState) : GameState :=
  if s.status ≠ GameStatus.IN_GAME then s
  else if 0 < handLenAt s.players s.currentTurnSeat then s
  else if s.slapWindow.active = true ∧ s.slapWindow.resolved = false then s
  else
    match nextNonEmptySeat s.players s.currentTurnSeat with
    | some seat => { s with currentTurnSeat := seat }
    | none => s

/-- Replace the element at index `i` by `f` applied to it (no-op out of range). -/
def modifyAt : List EnginePlayerState → Nat → (EnginePlayerState → EnginePlayerState) →
    List EnginePlayerState
  | [], _, _ => []
  | p :: ps, 0, f => f p :: ps
  | p :: ps, i + 1, f => p :: modifyAt ps i f

/-- From `state.ts`: the pile is appended to the bottom of the hand at `seat`
and cleared; returns the new state and the number of cards taken. -/
def pileToBottom (s : GameState) (seat : Nat) : GameState × Nat :=
  let pileTaken := s.pile.length
  let players :=
    if 0 < pileTaken then modifyAt s.players seat (fun p => { p with hand := p.hand ++ s.pile })
    else s.players
  ({ s with players := players, pile := [], pileCount := 0, pileTopCard := none }, pileTaken)

/-- From `state.ts`: reaction-time estimate with flooring at 0, then at
`minHumanMs`, then capping at `slapWindowMs + 2000`. -/
def resolveReactionMs (clientTime offsetMs t0 minHumanMs slapWindowMs : Int) : Int :=
  let estimatedTapServerTime := clientTime + offsetMs
  let r0 := estimatedTapServerTime - t0
  let r1 := if r0 < 0 then 0 else r0
  let r2 := if r1 < minHumanMs then minHumanMs else r1
  let maxReaction := slapWindowMs + 2000
  if maxReaction < r2 then maxReaction else r2

/-- Chant word for the current chant index (`CHANT_ORDER[state.chantIndex]!`). -/
def currentChantWord (s : GameState) : Card := CHANT_ORDER.getD s.chantIndex Card.TACO

/-! Reducer from `state.ts` (`applyEvent` and its local helpers). -/

/-- Code-point comparison standing in for `localeCompare`. -/
def chListLe : List Char → List Char → Bool
  | [], _ => true
  | _ :: _, [] => false
  | a :: as, b :: bs => if a < b then true else if b < a then false else chListLe as bs

def strLe (a b : String) : Bool := chListLe a.data b.data

def playerSeatByUserId (s : GameState) (userId : String) : Option Nat :=
  s.players.findIdx? (fun p => p.userId = userId)

def validateFlip (s : GameState) (userId : String) : Option ErrorCode :=
  if s.status ≠ GameStatus.IN_GAME then some .NOT_IN_GAME
  else if s.slapWindow.active = true ∧ s.slapWindow.resolved = false then
    some .SLAP_WINDOW_ACTIVE
  else if ((s.players[s.currentTurnSeat]?).map (fun p => p.userId)) ≠ some userId then
    some .NOT_YOUR_TURN
  else none

def resolveWinnerCondition (s : GameState) (orderedUserIds : List String) : Option String :=
  match orderedUserIds with
  | [] => none
  | firstUserId :: _ =>
    match playerSeatByUserId s firstUserId with
    | none => none
    | some seat => if handLenAt s.players seat = 0 then some firstUserId else none

/-- The comparator of `resolveSlapWindowInternal` as the relation
"comparator value is non-positive": for `SAME_CARD` windows it compares
`receivedAtServerTime`, then `clientSeq`, then `userId`; otherwise the
computed reaction times first. -/
def slapAttemptLeB (sameCard : Bool) (t0 minHuman winMs : Int) (a b : SlapAttempt) : Bool :=
  if sameCard then
    if a.receivedAtServerTime ≠ b.receivedAtServerTime then
      decide (a.receivedAtServerTime < b.receivedAtServerTime)
    else if a.clientSeq ≠ b.clientSeq then decide (a.clientSeq < b.clientSeq)
    else strLe a.userId b.userId
  else
    let r1 := resolveReactionMs a.clientTime a.offsetMs t0 minHuman winMs
    let r2 := resolveReactionMs b.clientTime b.offsetMs t0 minHuman winMs
    if r1 ≠ r2 then decide (r1 < r2)
    else if a.receivedAtServerTime ≠ b.receivedAtServerTime then
      decide (a.receivedAtServerTime < b.receivedAtServerTime)
    else if a.clientSeq ≠ b.clientSeq then decide (a.clientSeq < b.clientSeq)
    else strLe a.userId b.userId

def windowSortLe (s : GameState) : SlapAttempt → SlapAttempt → Bool :=
  slapAttemptLeB (decide (s.slapWindow.reason = some SlapWindowReason.SAME_CARD))
    (s.slapWindow.startServerTime.getD 0) s.config.minHumanMs
    (s.slapWindow.slapWindowMs.getD 0)

/-- The `validAttempts` list of `resolveSlapWindowInternal`: the attempts,
stably sorted by the comparator. -/
def sortedAttempts (s : GameState) : List SlapAttempt :=
  List.insertionSort (fun a b => windowSortLe s a b = true) s.slapWindow.attempts

def resolveSlapWindowInternal (s : GameState) : GameState × List EngineEffect :=
  if s.slapWindow.active = false ∨ s.slapWindow.eventId = none ∨ s.slapWindow.resolved = true then
    (s, [])
  else
    match s.slapWindow.eventId with
    | none => (s, [])
    | some windowEventId =>
      let sameCard := decide (s.slapWindow.reason = some SlapWindowReason.SAME_CARD)
      let orderedUserIds := (sortedAttempts s).map (fun a => a.userId)
      match orderedUserIds with
      | [] =>
        let loserSeat := s.slapWindow.flipperSeat.getD s.currentTurnSeat
        let loserUserId := ((s.players[loserSeat]?).map (fun p => p.userId)).getD ""
        let r := pileToBottom s loserSeat
        let s2 := normalizeTurnSeat { r.1 with currentTurnSeat := loserSeat }
        let s3 := { s2 with slapWindow := emptySlapWindow, version := s2.version + 1 }
        (s3, [EngineEffect.PENALTY loserUserId PenaltyType.NO_SLAPS r.2,
              EngineEffect.SLAP_RESULT windowEventId [] loserUserId SlapResultReason.NO_SLAPS r.2])
      | _ :: _ =>
        let winnerUserId := resolveWinnerCondition s orderedUserIds
        let nonSlappers :=
          (s.players.map (fun p => p.userId)).filter (fun u => !(orderedUserIds.contains u))
        let loserUserId :=
          if sameCard then orderedUserIds.getLastD ""
          else if nonSlappers.length ≠ 0 then nonSlappers.getLastD ""
          else orderedUserIds.getLastD ""
        let slapResultReason :=
          if sameCard then SlapResultReason.LAST_SLAPPER
          else if nonSlappers.length ≠ 0 then SlapResultReason.NON_SLAPPER
          else SlapResultReason.LAST_SLAPPER
        let pileTaken := s.pile.length
        let resultEffect :=
          EngineEffect.SLAP_RESULT windowEventId orderedUserIds loserUserId slapResultReason pileTaken
        match winnerUserId with
        | some w =>
          ({ s with status := GameStatus.FINISHED, winnerUserId := some w,
                    slapWindow := emptySlapWindow, version := s.version + 1 },
           [resultEffect, EngineEffect.GAME_FINISHED w])
        | none =>
          let s1 :=
            match playerSeatByUserId s loserUserId with
            | some loserSeat =>
              normalizeTurnSeat { (pileToBottom s loserSeat).1 with currentTurnSeat := loserSeat }
            | none => s
          ({ s1 with slapWindow := emptySlapWindow, version := s1.version + 1 }, [resultEffect])

def applyPenalty (s : GameState) (seat : Nat) (penaltyType : PenaltyType) :
    GameState × EngineEffect :=
  let userId := ((s.players[seat]?).map (fun p => p.userId)).getD ""
  let r := pileToBottom s seat
  let s2 := normalizeTurnSeat { r.1 with currentTurnSeat := seat, slapWindow := emptySlapWindow }
  (s2, EngineEffect.PENALTY userId penaltyType r.2)

def validateEvent (s : GameState) (event : EngineEvent) : Option ErrorCode :=
  match event with
  | .FLIP userId => validateFlip s userId
  | .RESOLVE_SLAP_WINDOW =>
    if s.status ≠ GameStatus.IN_GAME then some .NOT_IN_GAME
    else if s.slapWindow.active = false ∨ s.slapWindow.resolved = true then some .NO_SLAP_WINDOW
    else none
  | .TURN_TIMEOUT =>
    if s.status ≠ GameStatus.IN_GAME then some .NOT_IN_GAME
    else if s.slapWindow.active = true ∧ s.slapWindow.resolved = false then
      some .SLAP_WINDOW_ACTIVE
    else none
  | .SKIP_SLAP_WINDOW =>
    if s.status ≠ GameStatus.IN_GAME then some .NOT_IN_GAME
    else if s.slapWindow.active = false ∨ s.slapWindow.resolved = true then some .NO_SLAP_WINDOW
    else none
  | .SLAP .. =>
    if s.status ≠ GameStatus.IN_GAME then some .NOT_IN_GAME else none

def applyEvent (s : GameState) (event : EngineEvent) (nowServerTime : Int) : EngineResult :=
  let next := normalizeTurnSeat s
  let validation := validateEvent next event
  match event with
  | EngineEvent.FLIP _ =>
    match validation with
    | some code => ⟨s, [], some ⟨code, "flip rejected"⟩⟩
    | none =>
      match next.players[next.currentTurnSeat]? with
      | none => ⟨s, [], some ⟨.NOT_YOUR_TURN, "turn player has no card to flip"⟩⟩
      | some current =>
        match current.hand with
        | [] => ⟨s, [], some ⟨.NOT_YOUR_TURN, "turn player has no card to flip"⟩⟩
        | flipped :: rest =>
          let next1 :=
            { next with players :=
                modifyAt next.players next.currentTurnSeat (fun p => { p with hand := rest }) }
          let previousRevealedCard := next1.lastRevealed.map (fun r => r.card)
          let chantWord := currentChantWord next1
          let next2 :=
            { next1 with
              pile := next1.pile ++ [flipped],
              pileCount := (next1.pile ++ [flipped]).length,
              pileTopCard := some flipped,
              lastRevealed :=
                some ⟨flipped, chantWord, current.userId, current.seatIndex, nowServerTime⟩ }
          if rest.length = 0 then
            ⟨{ next2 with
                 status := GameStatus.FINISHED,
                 winnerUserId := some current.userId,
                 slapWindow := emptySlapWindow,
                 chantIndex := (next2.chantIndex + 1) % CHANT_ORDER.length,
                 version := next2.version + 1 },
             [EngineEffect.GAME_FINISHED current.userId], none⟩
          else
            let shouldOpenForAction := isActionCard flipped
            let shouldOpenForSameCard :=
              CHANT_ORDER.contains flipped && decide (previousRevealedCard = some flipped)
            let shouldOpenForMatch :=
              CHANT_ORDER.contains flipped && decide (flipped = chantWord)
            if shouldOpenForMatch || shouldOpenForAction || shouldOpenForSameCard then
              let eventId := deterministicEventId next2.nextSlapEventNonce
              let next3 := { next2 with nextSlapEventNonce := next2.nextSlapEventNonce + 1 }
              let reason :=
                if shouldOpenForAction then SlapWindowReason.ACTION
                else if shouldOpenForSameCard then SlapWindowReason.SAME_CARD
                else SlapWindowReason.MATCH
              let slapWindowMs :=
                if reason = SlapWindowReason.ACTION then next3.config.actionSlapWindowMs
                else next3.config.slapWindowMs
              let window : SlapWindowState :=
                { active := true, eventId := some eventId, reason := some reason,
                  actionCard := if shouldOpenForAction then some flipped else none,
                  startServerTime := some nowServerTime,
                  deadlineServerTime := some (nowServerTime + slapWindowMs),
                  slapWindowMs := some slapWindowMs,
                  flipperSeat := some next3.currentTurnSeat,
                  receivedSlapsCount := 0, attempts := [], resolved := false }
              let next4 :=
                { next3 with slapWindow := window,
                             chantIndex := (next3.chantIndex + 1) % CHANT_ORDER.length,
                             version := next3.version + 1 }
              ⟨next4,
               [EngineEffect.SLAP_WINDOW_OPEN eventId reason nowServerTime
                  (nowServerTime + slapWindowMs) slapWindowMs
                  (if shouldOpenForAction then some flipped else none)], none⟩
            else
              let next3 :=
                normalizeTurnSeat
                  { next2 with currentTurnSeat := advanceSeat next2.currentTurnSeat next2.players.length }
              ⟨{ next3 with chantIndex := (next3.chantIndex + 1) % CHANT_ORDER.length,
                            version := next3.version + 1 }, [], none⟩
  | EngineEvent.TURN_TIMEOUT =>
    match validation with
    | some code => ⟨s, [], some ⟨code, "invalid event: TURN_TIMEOUT"⟩⟩
    | none =>
      let r := applyPenalty next next.currentTurnSeat PenaltyType.TURN_TIMEOUT
      ⟨{ r.1 with version := r.1.version + 1 }, [r.2], none⟩
  | EngineEvent.RESOLVE_SLAP_WINDOW =>
    match validation with
    | some code => ⟨s, [], some ⟨code, "invalid event: RESOLVE_SLAP_WINDOW"⟩⟩
    | none =>
      let r := resolveSlapWindowInternal next
      ⟨r.1, r.2, none⟩
  | EngineEvent.SKIP_SLAP_WINDOW =>
    match validation with
    | some code => ⟨s, [], some ⟨code, "invalid event: SKIP_SLAP_WINDOW"⟩⟩
    | none =>
      let next2 :=
        { next with pile := [], pileCount := 0, pileTopCard := none, slapWindow := emptySlapWindow }
      let next3 :=
        normalizeTurnSeat
          { next2 with currentTurnSeat := advanceSeat next2.currentTurnSeat next2.players.length }
      ⟨{ next3 with version := next3.version + 1 }, [], none⟩
  | EngineEvent.SLAP userId eventId gesture clientSeq clientTime offsetMs rttMs =>
    match validation with
    | some code => ⟨s, [], some ⟨code, "slap rejected"⟩⟩
    | none =>
      match playerSeatByUserId next userId with
      | none => ⟨s, [], some ⟨.INTERNAL_ERROR, "unknown slapper"⟩⟩
      | some slapSeat =>
        let aw := next.slapWindow
        if aw.active = false ∨ aw.resolved = true ∨ aw.eventId = none ∨
            aw.eventId ≠ some eventId then
          let r := applyPenalty next slapSeat PenaltyType.FALSE_SLAP
          ⟨{ r.1 with version := r.1.version + 1 }, [r.2], none⟩
        else if aw.attempts.any (fun a => a.userId = userId) then
          ⟨s, [], some ⟨.ALREADY_SLAPPED, "duplicate slap ignored"⟩⟩
        else if aw.reason = some SlapWindowReason.ACTION ∧
            (gesture = none ∨ gesture ≠ aw.actionCard) then
          let r := applyPenalty next slapSeat PenaltyType.WRONG_GESTURE
          ⟨{ r.1 with version := r.1.version + 1 }, [r.2], none⟩
        else
          let attempt : SlapAttempt :=
            ⟨userId, eventId, gesture, clientSeq, clientTime, offsetMs, rttMs, nowServerTime⟩
          let newAttempts := aw.attempts ++ [attempt]
          let next2 :=
            { next with slapWindow :=
                { aw with attempts := newAttempts, receivedSlapsCount := newAttempts.length } }
          if newAttempts.length = 1 ∧
              (((next2.players[slapSeat]?).map (fun p => p.hand.length)).getD 1 = 0) then
            match aw.eventId with
            | none => ⟨s, [], some ⟨.INTERNAL_ERROR, "missing slap event id"⟩⟩
            | some resultEventId =>
              ⟨{ next2 with status := GameStatus.FINISHED, winnerUserId := some userId,
                            slapWindow := emptySlapWindow, version := next2.version + 1 },
               [EngineEffect.SLAP_RESULT resultEventId [userId] userId
                  SlapResultReason.FIRST_VALID_SLAP_WIN 0,
                EngineEffect.GAME_FINISHED userId], none⟩
          else
            let requiresAllConnectedSlaps :=
              aw.reason = some SlapWindowReason.SAME_CARD ∨
              aw.reason = some SlapWindowReason.ACTION
            let requiredSlaps :=
              if requiresAllConnectedSlaps then
                max 1 (next2.players.filter (fun p => p.connected)).length
              else next2.players.length
            if requiredSlaps ≤ newAttempts.length then
              let r := resolveSlapWindowInternal next2
              ⟨r.1, r.2, none⟩
            else
              ⟨{ next2 with version := next2.version + 1 }, [], none⟩

/-! View projection from `packages/engine/src/view.ts`. -/

structure PublicPlayerState where
  userId : String
  displayName : String
  seatIndex : Nat
  connected : Bool
  ready : Bool
  handCount : Nat
deriving DecidableEq, Repr

structure SlapWindowView where
  active : Bool
  receivedSlapsCount : Nat
  slappedUserIds : List String
  resolved : Bool
  eventId : Option String
  reason : Option SlapWindowReason
  actionCard : Option Card
  startServerTime : Option Int
  deadlineServerTime : Option Int
  slapWindowMs : Option Int
deriving DecidableEq, Repr

structure GameStateView where
  status : GameStatus
  players : List PublicPlayerState
  meHand : List Card
  currentTurnSeat : Nat
  chantIndex : Nat
  pileCount : Nat
  pileTopCard : Option Card
  lastRevealed : Option LastRevealed
  slapWindow : SlapWindowView
  winnerUserId : Option String
  version : Nat
deriving DecidableEq, Repr

def buildGameStateView (s : GameState) (meUserId : String) : GameStateView :=
  let me := s.players.find? (fun p => p.userId = meUserId)
  { status := s.status,
    players := s.players.map (fun p =>
      { userId := p.userId, displayName := p.displayName, seatIndex := p.seatIndex,
        connected := p.connected, ready := p.ready, handCount := p.hand.length }),
    meHand := (me.map (fun p => p.hand)).getD [],
    currentTurnSeat := s.currentTurnSeat,
    chantIndex := s.chantIndex,
    pileCount := s.pileCount,
    pileTopCard := s.pileTopCard,
    lastRevealed := s.lastRevealed,
    slapWindow :=
      { active := s.slapWindow.active,
        receivedSlapsCount := s.slapWindow.receivedSlapsCount,
        slappedUserIds := s.slapWindow.attempts.map (fun a => a.userId),
        resolved := s.slapWindow.resolved,
        eventId := s.slapWindow.eventId,
        reason := s.slapWindow.reason,
        actionCard := s.slapWindow.actionCard,
        startServerTime := s.slapWindow.startServerTime,
        deadlineServerTime := s.slapWindow.deadlineServerTime,
        slapWindowMs := s.slapWindow.slapWindowMs },
    winnerUserId := s.winnerUserId,
    version := s.version }

end SlapHard

namespace SlapHard

/-! Helper lemmas about `normalizeTurnSeat`. -/

lemma normalizeTurnSeat_eq_self_of_active (s : GameState)
    (hw : s.slapWindow.active = true) (hr : s.slapWindow.resolved = false) :
    normalizeTurnSeat s = s := by
  unfold normalizeTurnSeat
  split_ifs with h1 h2 h3
  · rfl
  · rfl
  · rfl
  · exact absurd ⟨hw, hr⟩ h3

lemma normalizeTurnSeat_eq_self_of_handNonempty (s : GameState)
    (hlen : 0 < handLenAt s.players s.currentTurnSeat) :
    normalizeTurnSeat s = s := by
  unfold normalizeTurnSeat
  split_ifs <;> rfl

lemma normalizeTurnSeat_shape (s : GameState) :
    ∃ k, normalizeTurnSeat s = { s with currentTurnSeat := k } := by
  unfold normalizeTurnSeat
  split_ifs
  · exact ⟨s.currentTurnSeat, rfl⟩
  · exact ⟨s.currentTurnSeat, rfl⟩
  · exact ⟨s.currentTurnSeat, rfl⟩
  · cases h : nextNonEmptySeat s.players s.currentTurnSeat
    · exact ⟨s.currentTurnSeat, rfl⟩
    · exact ⟨_, rfl⟩

lemma normalizeTurnSeat_seat (s : GameState) (hst : s.status = GameStatus.IN_GAME)
    (hwin : ¬(s.slapWindow.active = true ∧ s.slapWindow.resolved = false)) :
    (normalizeTurnSeat s).currentTurnSeat =
      if 0 < handLenAt s.players s.currentTurnSeat then s.currentTurnSeat
      else (nextNonEmptySeat s.players s.currentTurnSeat).getD s.currentTurnSeat := by
  unfold normalizeTurnSeat
  rw [if_neg (by simp [hst])]
  by_cases h : 0 < handLenAt s.players s.currentTurnSeat
  · simp [h]
  · rw [if_neg h, if_neg hwin, if_neg h]
    cases hn : nextNonEmptySeat s.players s.currentTurnSeat <;> simp [hn]

/-- C5: the reaction-time estimate equals `(clientTime + offsetMs) − startServerTime`
with negatives replaced by 0, raised to at least `minHumanMs`, capped at
`slapWindowMs + 2000`; whenever `minHumanMs ≤ slapWindowMs + 2000` the result
lies in the closed interval `[minHumanMs, slapWindowMs + 2000]`. -/
theorem resolveReactionMs_clamps (clientTime offsetMs t0 minHumanMs slapWindowMs : Int)
    (h : minHumanMs ≤ slapWindowMs + 2000) :
    resolveReactionMs clientTime offsetMs t0 minHumanMs slapWindowMs =
        min (max (max (clientTime + offsetMs - t0) 0) minHumanMs) (slapWindowMs + 2000) ∧
    minHumanMs ≤ resolveReactionMs clientTime offsetMs t0 minHumanMs slapWindowMs ∧
    resolveReactionMs clientTime offsetMs t0 minHumanMs slapWindowMs ≤ slapWindowMs + 2000 := by
  refine ⟨?_, ?_, ?_⟩ <;>
    (unfold resolveReactionMs; simp only [min_def, max_def]; split_ifs <;> omega)

/-- Witness for C5 at a concrete input. -/
theorem resolveReactionMs_clamps_witness :
    resolveReactionMs 1060 0 1000 60 2000 =
        min (max (max ((1060 : Int) + 0 - 1000) 0) 60) (2000 + 2000) ∧
    (60 : Int) ≤ resolveReactionMs 1060 0 1000 60 2000 ∧
    resolveReactionMs 1060 0 1000 60 2000 ≤ 2000 + 2000 :=
  resolveReactionMs_clamps 1060 0 1000 60 2000 (by decide)

/-- C6: the default deck has exactly 47 cards, 7 copies of each normal card
and 4 copies of each action card. -/
theorem default_deck_composition :
    DEFAULT_DECK.length = 47 ∧
    DEFAULT_DECK.count Card.TACO = 7 ∧ DEFAULT_DECK.count Card.CAT = 7 ∧
    DEFAULT_DECK.count Card.GOAT = 7 ∧ DEFAULT_DECK.count Card.CHEESE = 7 ∧
    DEFAULT_DECK.count Card.PIZZA = 7 ∧ DEFAULT_DECK.count Card.GORILLA = 4 ∧
    DEFAULT_DECK.count Card.NARWHAL = 4 ∧ DEFAULT_DECK.count Card.GROUNDHOG = 4 := by
  decide

end SlapHard

namespace SlapHard

/-! Concrete fixtures used by witnesses. -/

def cfg0 : GameConfig :=
  { slapWindowMs := 2000, actionSlapWindowMs := 3200, turnTimeoutMs := 5000, minHumanMs := 60 }

/-- Inactive slap window as produced by `createInitialState`. -/
def inactiveWindow0 : SlapWindowState :=
  { active := false, eventId := none, reason := none, actionCard := none,
    startServerTime := none, deadlineServerTime := none, slapWindowMs := none,
    flipperSeat := none, receivedSlapsCount := 0, attempts := [], resolved := false }

def playerA : EnginePlayerState :=
  { userId := "u1", displayName := "P1", seatIndex := 0, connected := true, ready := true,
    hand := [Card.GORILLA] }

def playerB : EnginePlayerState :=
  { userId := "u2", displayName := "P2", seatIndex := 1, connected := true, ready := true,
    hand := [Card.CAT] }

def stateFlipLast : GameState :=
  { status := GameStatus.IN_GAME, players := [playerA, playerB], currentTurnSeat := 0,
    chantIndex := 0, pile := [], pileCount := 0, pileTopCard := none, lastRevealed := none,
    slapWindow := inactiveWindow0, winnerUserId := none, version := 1,
    nextSlapEventNonce := 1, config := cfg0 }

/-- C1: a FLIP by the current-turn player whose hand holds exactly one card
finishes the game: `FINISHED` status, the flipper as winner, inactive slap
window, chant index advanced modulo 5, and `GAME_FINISHED` as the only effect
(no slap window opens, whatever the flipped card is). -/
theorem flip_last_card_finishes
    (s : GameState) (uid : String) (p : EnginePlayerState) (c : Card) (t : Int)
    (hstatus : s.status = GameStatus.IN_GAME)
    (hwin : ¬(s.slapWindow.active = true ∧ s.slapWindow.resolved = false))
    (hget : s.players[s.currentTurnSeat]? = some p)
    (hhand : p.hand = [c])
    (huid : p.userId = uid) :
    (applyEvent s (EngineEvent.FLIP uid) t).error = none ∧
    (applyEvent s (EngineEvent.FLIP uid) t).state.status = GameStatus.FINISHED ∧
    (applyEvent s (EngineEvent.FLIP uid) t).state.winnerUserId = some uid ∧
    (applyEvent s (EngineEvent.FLIP uid) t).state.slapWindow.active = false ∧
    (applyEvent s (EngineEvent.FLIP uid) t).state.chantIndex = (s.chantIndex + 1) % 5 ∧
    (applyEvent s (EngineEvent.FLIP uid) t).effects = [EngineEffect.GAME_FINISHED uid] := by
  have hlen : 0 < handLenAt s.players s.currentTurnSeat := by
    unfold handLenAt
    rw [hget]
    simp [hhand]
  have hnorm := normalizeTurnSeat_eq_self_of_handNonempty s hlen
  have hval : validateEvent s (EngineEvent.FLIP uid) = none := by
    simp only [validateEvent, validateFlip]
    rw [if_neg (by simp [hstatus]), if_neg hwin, if_neg (by simp [hget, huid])]
  simp only [applyEvent, hnorm, hval, hget, hhand]
  simp [huid, emptySlapWindow, CHANT_ORDER, NORMAL_CARDS]

/-- Witness for C1: flipping the last card — here even an action card
(GORILLA) — finishes the game without opening a window. -/
theorem flip_last_card_finishes_witness :
    (applyEvent stateFlipLast (EngineEvent.FLIP "u1") 7).error = none ∧
    (applyEvent stateFlipLast (EngineEvent.FLIP "u1") 7).state.status = GameStatus.FINISHED ∧
    (applyEvent stateFlipLast (EngineEvent.FLIP "u1") 7).state.winnerUserId = some "u1" ∧
    (applyEvent stateFlipLast (EngineEvent.FLIP "u1") 7).state.slapWindow.active = false ∧
    (applyEvent stateFlipLast (EngineEvent.FLIP "u1") 7).state.chantIndex =
      (stateFlipLast.chantIndex + 1) % 5 ∧
    (applyEvent stateFlipLast (EngineEvent.FLIP "u1") 7).effects =
      [EngineEffect.GAME_FINISHED "u1"] :=
  flip_last_card_finishes stateFlipLast "u1" playerA Card.GORILLA 7 rfl (by decide)
    (by decide) rfl rfl

end SlapHard

namespace SlapHard

def attemptU1 : SlapAttempt :=
  { userId := "u1", eventId := "e1", gesture := none, clientSeq := 1, clientTime := 1100,
    offsetMs := 0, rttMs := 5, receivedAtServerTime := 1105 }

def matchWindow1 : SlapWindowState :=
  { active := true, eventId := some "e1", reason := some SlapWindowReason.MATCH,
    actionCard := none, startServerTime := some 1000, deadlineServerTime := some 3000,
    slapWindowMs := some 2000, flipperSeat := some 0, receivedSlapsCount := 1,
    attempts := [attemptU1], resolved := false }

def playerA1 : EnginePlayerState :=
  { userId := "u1", displayName := "P1", seatIndex := 0, connected := true, ready := true,
    hand := [Card.GOAT] }

def stateMatchWindow : GameState :=
  { status := GameStatus.IN_GAME, players := [playerA1, playerB], currentTurnSeat := 0,
    chantIndex := 1, pile := [Card.TACO], pileCount := 1, pileTopCard := some Card.TACO,
    lastRevealed := none, slapWindow := matchWindow1, winnerUserId := none, version := 2,
    nextSlapEventNonce := 2, config := cfg0 }

/-- C7: a second SLAP with the active window's eventId from a user who already
has a recorded attempt returns the input state unchanged, no effects, and the
`ALREADY_SLAPPED` error. -/
theorem duplicate_slap_is_rejected_noop
    (s : GameState) (uid eid : String) (g : Option Card) (cs ct om rt t : Int)
    (hstatus : s.status = GameStatus.IN_GAME)
    (hactive : s.slapWindow.active = true)
    (hres : s.slapWindow.resolved = false)
    (heid : s.slapWindow.eventId = some eid)
    (hseat : (s.players.findIdx? (fun p => p.userId = uid)).isSome)
    (hdup : (s.slapWindow.attempts.any fun a => a.userId = uid) = true) :
    applyEvent s (EngineEvent.SLAP uid eid g cs ct om rt) t =
      ⟨s, [], some ⟨ErrorCode.ALREADY_SLAPPED, "duplicate slap ignored"⟩⟩ := by
  have hnorm := normalizeTurnSeat_eq_self_of_active s hactive hres
  obtain ⟨seat, hseatEq⟩ := Option.isSome_iff_exists.mp hseat
  have hval : validateEvent s (EngineEvent.SLAP uid eid g cs ct om rt) = none := by
    simp [validateEvent, hstatus]
  have hfind : playerSeatByUserId s uid = some seat := hseatEq
  simp only [applyEvent, hnorm, hval, hfind]
  rw [if_neg (by simp [hactive, hres, heid])]
  rw [if_pos hdup]

/-- Witness for C7 at a concrete state: u1 already slapped window e1 and slaps
again. -/
theorem duplicate_slap_is_rejected_noop_witness :
    applyEvent stateMatchWindow (EngineEvent.SLAP "u1" "e1" none 2 1200 0 5) 1205 =
      ⟨stateMatchWindow, [], some ⟨ErrorCode.ALREADY_SLAPPED, "duplicate slap ignored"⟩⟩ :=
  duplicate_slap_is_rejected_noop stateMatchWindow "u1" "e1" none 2 1200 0 5 1205
    rfl rfl rfl rfl (by decide) (by decide)

end SlapHard

namespace SlapHard

/-- Total number of cards held in hands plus the pile. -/
def totalCards (s : GameState) : Nat :=
  (s.players.map (fun p => p.hand.length)).sum + s.pile.length

/-- C10: SKIP_SLAP_WINDOW on an active unresolved window discards the pile
(no hand changes, so cards in play drop by the pile size), resets the window,
advances the turn seat with non-empty-hand normalization, bumps the version
and emits no effects. -/
theorem skip_discards_pile
    (s : GameState) (t : Int)
    (hstatus : s.status = GameStatus.IN_GAME)
    (hactive : s.slapWindow.active = true)
    (hres : s.slapWindow.resolved = false) :
    (applyEvent s EngineEvent.SKIP_SLAP_WINDOW t).error = none ∧
    (applyEvent s EngineEvent.SKIP_SLAP_WINDOW t).effects = [] ∧
    (applyEvent s EngineEvent.SKIP_SLAP_WINDOW t).state.players = s.players ∧
    (applyEvent s EngineEvent.SKIP_SLAP_WINDOW t).state.pile = [] ∧
    (applyEvent s EngineEvent.SKIP_SLAP_WINDOW t).state.pileCount = 0 ∧
    (applyEvent s EngineEvent.SKIP_SLAP_WINDOW t).state.slapWindow = emptySlapWindow ∧
    (applyEvent s EngineEvent.SKIP_SLAP_WINDOW t).state.version = s.version + 1 ∧
    totalCards (applyEvent s EngineEvent.SKIP_SLAP_WINDOW t).state + s.pile.length =
      totalCards s ∧
    (applyEvent s EngineEvent.SKIP_SLAP_WINDOW t).state.currentTurnSeat =
      (if 0 < handLenAt s.players (advanceSeat s.currentTurnSeat s.players.length) then
        advanceSeat s.currentTurnSeat s.players.length
       else
        (nextNonEmptySeat s.players
            (advanceSeat s.currentTurnSeat s.players.length)).getD
          (advanceSeat s.currentTurnSeat s.players.length)) := by
  have hnorm := normalizeTurnSeat_eq_self_of_active s hactive hres
  have hval : validateEvent s EngineEvent.SKIP_SLAP_WINDOW = none := by
    simp [validateEvent, hstatus, hactive, hres]
  set s2 : GameState :=
    { s with pile := [], pileCount := 0, pileTopCard := none, slapWindow := emptySlapWindow,
             currentTurnSeat := advanceSeat s.currentTurnSeat s.players.length } with hs2
  have happ : applyEvent s EngineEvent.SKIP_SLAP_WINDOW t =
      ⟨{ normalizeTurnSeat s2 with version := (normalizeTurnSeat s2).version + 1 }, [], none⟩ := by
    simp only [applyEvent, hnorm, hval]
  have hseat := normalizeTurnSeat_seat s2 (by simp [hs2, hstatus])
    (by simp [hs2, emptySlapWindow])
  obtain ⟨k, hk⟩ := normalizeTurnSeat_shape s2
  rw [hk] at hseat happ
  rw [happ]
  refine ⟨rfl, rfl, rfl, rfl, rfl, rfl, rfl, ?_, ?_⟩
  · simp [totalCards, hs2]
  · simpa [hs2] using hseat

/-- Witness for C10 at a concrete state with a one-card pile. -/
theorem skip_discards_pile_witness :
    (applyEvent stateMatchWindow EngineEvent.SKIP_SLAP_WINDOW 2000).error = none ∧
    (applyEvent stateMatchWindow EngineEvent.SKIP_SLAP_WINDOW 2000).effects = [] ∧
    (applyEvent stateMatchWindow EngineEvent.SKIP_SLAP_WINDOW 2000).state.players =
      stateMatchWindow.players ∧
    (applyEvent stateMatchWindow EngineEvent.SKIP_SLAP_WINDOW 2000).state.pile = [] ∧
    (applyEvent stateMatchWindow EngineEvent.SKIP_SLAP_WINDOW 2000).state.pileCount = 0 ∧
    (applyEvent stateMatchWindow EngineEvent.SKIP_SLAP_WINDOW 2000).state.slapWindow =
      emptySlapWindow ∧
    (applyEvent stateMatchWindow EngineEvent.SKIP_SLAP_WINDOW 2000).state.version =
      stateMatchWindow.version + 1 ∧
    totalCards (applyEvent stateMatchWindow EngineEvent.SKIP_SLAP_WINDOW 2000).state +
        stateMatchWindow.pile.length = totalCards stateMatchWindow ∧
    (applyEvent stateMatchWindow EngineEvent.SKIP_SLAP_WINDOW 2000).state.currentTurnSeat =
      (if 0 < handLenAt stateMatchWindow.players
            (advanceSeat stateMatchWindow.currentTurnSeat stateMatchWindow.players.length) then
        advanceSeat stateMatchWindow.currentTurnSeat stateMatchWindow.players.length
       else
        (nextNonEmptySeat stateMatchWindow.players
            (advanceSeat stateMatchWindow.currentTurnSeat stateMatchWindow.players.length)).getD
          (advanceSeat stateMatchWindow.currentTurnSeat stateMatchWindow.players.length)) :=
  skip_discards_pile stateMatchWindow 2000 rfl rfl rfl

end SlapHard

namespace SlapHard

lemma applyEvent_error_shape (s : GameState) (e : EngineEvent) (t : Int) :
    (applyEvent s e t).error = none ∨
      ((applyEvent s e t).state = s ∧ (applyEvent s e t).effects = []) := by
  cases e <;> simp only [applyEvent] <;> (repeat' split) <;> simp

/-- C9: whenever `applyEvent` reports an error — any code, any event kind —
the returned state is exactly the input state and the effects list is empty. -/
theorem engine_error_returns_input_state (s : GameState) (e : EngineEvent) (t : Int)
    (h : (applyEvent s e t).error ≠ none) :
    (applyEvent s e t).state = s ∧ (applyEvent s e t).effects = [] := by
  rcases applyEvent_error_shape s e t with h0 | h0
  · exact absurd h0 h
  · exact h0

/-- Witness for C9: a FLIP by the non-turn player errors with the input state
returned untouched. -/
theorem engine_error_returns_input_state_witness :
    (applyEvent stateFlipLast (EngineEvent.FLIP "u2") 0).error ≠ none ∧
    ((applyEvent stateFlipLast (EngineEvent.FLIP "u2") 0).state = stateFlipLast ∧
     (applyEvent stateFlipLast (EngineEvent.FLIP "u2") 0).effects = []) :=
  ⟨by decide, engine_error_returns_input_state stateFlipLast (EngineEvent.FLIP "u2") 0 (by decide)⟩

end SlapHard

namespace SlapHard

/-- Two engine players agree on everything a third party may observe:
identity, seat, flags and hand size; and on the full hand when the player is
the recipient `me`. -/
def SamePublicProfile (me : String) (p q : EnginePlayerState) : Prop :=
  p.userId = q.userId ∧ p.displayName = q.displayName ∧ p.seatIndex = q.seatIndex ∧
  p.connected = q.connected ∧ p.ready = q.ready ∧ p.hand.length = q.hand.length ∧
  (p.userId = me → p.hand = q.hand)

lemma forall2_public_map (me : String) {ps qs : List EnginePlayerState}
    (h : List.Forall₂ (SamePublicProfile me) ps qs) :
    qs.map (fun p =>
      ({ userId := p.userId, displayName := p.displayName, seatIndex := p.seatIndex,
         connected := p.connected, ready := p.ready,
         handCount := p.hand.length } : PublicPlayerState)) =
    ps.map (fun p =>
      ({ userId := p.userId, displayName := p.displayName, seatIndex := p.seatIndex,
         connected := p.connected, ready := p.ready,
         handCount := p.hand.length } : PublicPlayerState)) := by
  induction h with
  | nil => rfl
  | cons hr htail ih =>
    obtain ⟨h1, h2, h3, h4, h5, h6, _⟩ := hr
    simp [ih, h1, h2, h3, h4, h5, h6]

lemma forall2_meHand (me : String) {ps qs : List EnginePlayerState}
    (h : List.Forall₂ (SamePublicProfile me) ps qs) :
    ((qs.find? (fun p => p.userId = me)).map (fun p => p.hand)).getD [] =
    ((ps.find? (fun p => p.userId = me)).map (fun p => p.hand)).getD [] := by
  induction h with
  | nil => rfl
  | @cons a b as bs hr htail ih =>
    obtain ⟨h1, _, _, _, _, _, h7⟩ := hr
    by_cases hme : a.userId = me
    · rw [List.find?_cons_of_pos _ (by simp [← h1, hme]),
        List.find?_cons_of_pos _ (by simp [hme])]
      simp [h7 hme]
    · rw [List.find?_cons_of_neg _ (by simp [← h1, hme]),
        List.find?_cons_of_neg _ (by simp [hme])]
      exact ih

/-- C8: the projection exposes only `handCount` per player (the recipient gets
their own hand), replaces window attempts by `slappedUserIds` in attempt order
keeping `receivedSlapsCount`; consequently two states differing only in hand
contents of players other than the recipient (with equal hand lengths) project
to identical views. -/
theorem view_hides_other_hands (s : GameState) (ps2 : List EnginePlayerState) (me : String)
    (hrel : List.Forall₂ (SamePublicProfile me) s.players ps2) :
    buildGameStateView { s with players := ps2 } me = buildGameStateView s me ∧
    (buildGameStateView s me).players.map (fun p => p.handCount) =
      s.players.map (fun p => p.hand.length) ∧
    (buildGameStateView s me).slapWindow.slappedUserIds =
      s.slapWindow.attempts.map (fun a => a.userId) ∧
    (buildGameStateView s me).slapWindow.receivedSlapsCount =
      s.slapWindow.receivedSlapsCount ∧
    (∀ q, s.players.find? (fun p => p.userId = me) = some q →
      (buildGameStateView s me).meHand = q.hand) := by
  have hmap := forall2_public_map me hrel
  have hme := forall2_meHand me hrel
  refine ⟨?_, ?_, rfl, rfl, ?_⟩
  · simp [buildGameStateView, hmap, hme]
  · simp [buildGameStateView, List.map_map, Function.comp]
  · intro q hq
    simp [buildGameStateView, hq]

/-- Variant of u2 holding a different card of the same hand size. -/
def playerBAlt : EnginePlayerState :=
  { userId := "u2", displayName := "P2", seatIndex := 1, connected := true, ready := true,
    hand := [Card.PIZZA] }

/-- Witness for C8: swapping u2's hidden card leaves u1's view unchanged. -/
theorem view_hides_other_hands_witness :
    buildGameStateView { stateMatchWindow with players := [playerA1, playerBAlt] } "u1" =
      buildGameStateView stateMatchWindow "u1" ∧
    (buildGameStateView stateMatchWindow "u1").players.map (fun p => p.handCount) =
      stateMatchWindow.players.map (fun p => p.hand.length) ∧
    (buildGameStateView stateMatchWindow "u1").slapWindow.slappedUserIds =
      stateMatchWindow.slapWindow.attempts.map (fun a => a.userId) ∧
    (buildGameStateView stateMatchWindow "u1").slapWindow.receivedSlapsCount =
      stateMatchWindow.slapWindow.receivedSlapsCount ∧
    (buildGameStateView stateMatchWindow "u1").meHand = playerA1.hand := by
  have h := view_hides_other_hands stateMatchWindow [playerA1, playerBAlt] "u1"
    (by
      show List.Forall₂ (SamePublicProfile "u1") [playerA1, playerB] [playerA1, playerBAlt]
      refine List.Forall₂.cons ⟨rfl, rfl, rfl, rfl, rfl, rfl, fun _ => rfl⟩ ?_
      refine List.Forall₂.cons ⟨rfl, rfl, rfl, rfl, rfl, ?_, fun h => absurd h (by decide)⟩
        List.Forall₂.nil
      decide)
  exact ⟨h.1, h.2.1, h.2.2.1, h.2.2.2.1, h.2.2.2.2 playerA1 (by decide)⟩

end SlapHard

namespace SlapHard

/-- C2 (amended): for a valid, non-duplicate SLAP into an active window that
is NOT a first attempt by an empty-handed player, the window resolves exactly
when the appended attempt count reaches the required count — `max 1
(connected players)` for SAME_CARD and ACTION windows, all players for MATCH —
and otherwise the attempt is only recorded with a version bump. -/
theorem slap_threshold_resolution
    (s : GameState) (uid eid : String) (g : Option Card) (cs ct om rt t : Int) (seat : Nat)
    (hstatus : s.status = GameStatus.IN_GAME)
    (hactive : s.slapWindow.active = true)
    (hres : s.slapWindow.resolved = false)
    (heid : s.slapWindow.eventId = some eid)
    (hseat : playerSeatByUserId s uid = some seat)
    (hdup : (s.slapWindow.attempts.any fun a => a.userId = uid) = false)
    (hgesture : ¬(s.slapWindow.reason = some SlapWindowReason.ACTION ∧
      (g = none ∨ g ≠ s.slapWindow.actionCard)))
    (hnofirstwin : ¬(s.slapWindow.attempts = [] ∧
      ((s.players[seat]?).map (fun p => p.hand.length)).getD 1 = 0)) :
    applyEvent s (EngineEvent.SLAP uid eid g cs ct om rt) t =
      (if (if s.slapWindow.reason = some SlapWindowReason.SAME_CARD ∨
              s.slapWindow.reason = some SlapWindowReason.ACTION then
            max 1 (s.players.filter (fun p => p.connected)).length
          else s.players.length) ≤ s.slapWindow.attempts.length + 1 then
        ⟨(resolveSlapWindowInternal
            { s with slapWindow :=
                { s.slapWindow with
                  attempts := s.slapWindow.attempts ++
                    [⟨uid, eid, g, cs, ct, om, rt, t⟩],
                  receivedSlapsCount := s.slapWindow.attempts.length + 1 } }).1,
         (resolveSlapWindowInternal
            { s with slapWindow :=
                { s.slapWindow with
                  attempts := s.slapWindow.attempts ++
                    [⟨uid, eid, g, cs, ct, om, rt, t⟩],
                  receivedSlapsCount := s.slapWindow.attempts.length + 1 } }).2, none⟩
       else
        ⟨{ s with
             slapWindow :=
               { s.slapWindow with
                 attempts := s.slapWindow.attempts ++ [⟨uid, eid, g, cs, ct, om, rt, t⟩],
                 receivedSlapsCount := s.slapWindow.attempts.length + 1 },
             version := s.version + 1 }, [], none⟩) := by
  have hnorm := normalizeTurnSeat_eq_self_of_active s hactive hres
  have hval : validateEvent s (EngineEvent.SLAP uid eid g cs ct om rt) = none := by
    simp [validateEvent, hstatus]
  simp only [applyEvent, hnorm, hval, hseat]
  rw [if_neg (by simp [hactive, hres, heid])]
  rw [if_neg (by simp [hdup])]
  rw [if_neg hgesture]
  rw [if_neg (by
    simp only [List.length_append, List.length_cons, List.length_nil]
    intro hcontra
    refine hnofirstwin ⟨?_, hcontra.2⟩
    have := hcontra.1
    cases hA : s.slapWindow.attempts with
    | nil => rfl
    | cons x xs =>
      rw [hA] at this
      simp at this)]
  simp

/-- State after u2's attempt is appended to window e1. -/
def stateMatchWindowPushed : GameState :=
  { stateMatchWindow with
    slapWindow :=
      { matchWindow1 with
        attempts := [attemptU1, ⟨"u2", "e1", none, 2, 1200, 0, 5, 1205⟩],
        receivedSlapsCount := 2 } }

/-- Witness for the amended C2: u2's slap is the second of two required for a
MATCH window with two players, so the window resolves. -/
theorem slap_threshold_resolution_witness :
    applyEvent stateMatchWindow (EngineEvent.SLAP "u2" "e1" none 2 1200 0 5) 1205 =
      ⟨(resolveSlapWindowInternal stateMatchWindowPushed).1,
       (resolveSlapWindowInternal stateMatchWindowPushed).2, none⟩ := by
  have h := slap_threshold_resolution stateMatchWindow "u2" "e1" none 2 1200 0 5 1205 1
    rfl rfl rfl rfl (by decide) (by decide) (by decide) (by decide)
  rw [h]
  norm_num
  rfl

/-- Two-player state with a MATCH window, no attempts yet, and u2 holding an
empty hand. -/
def stateFirstSlapWin : GameState :=
  { status := GameStatus.IN_GAME,
    players := [playerA1,
      { userId := "u2", displayName := "P2", seatIndex := 1, connected := true, ready := true,
        hand := [] }],
    currentTurnSeat := 0, chantIndex := 1, pile := [Card.TACO], pileCount := 1,
    pileTopCard := some Card.TACO, lastRevealed := none,
    slapWindow :=
      { active := true, eventId := some "e1", reason := some SlapWindowReason.MATCH,
        actionCard := none, startServerTime := some 1000, deadlineServerTime := some 3000,
        slapWindowMs := some 2000, flipperSeat := some 0, receivedSlapsCount := 0,
        attempts := [], resolved := false },
    winnerUserId := none, version := 2, nextSlapEventNonce := 2, config := cfg0 }

/-- Counterexample to C2 as stated: in `stateFirstSlapWin` the MATCH window
requires 2 slaps and u2's valid first slap brings the count only to 1, so the
claim predicts a recorded attempt with a version bump and no resolution; the
code instead finishes the game at once (first-valid-slap win) and emits
effects. -/
theorem slap_threshold_resolution_cex :
    stateFirstSlapWin.players.length = 2 ∧
    stateFirstSlapWin.slapWindow.reason = some SlapWindowReason.MATCH ∧
    stateFirstSlapWin.slapWindow.attempts.length + 1 < 2 + 1 ∧
    ¬((applyEvent stateFirstSlapWin (EngineEvent.SLAP "u2" "e1" none 1 1100 0 5) 1105).effects
        = [] ∧
      (applyEvent stateFirstSlapWin
          (EngineEvent.SLAP "u2" "e1" none 1 1100 0 5) 1105).state.slapWindow.active = true) ∧
    (applyEvent stateFirstSlapWin
        (EngineEvent.SLAP "u2" "e1" none 1 1100 0 5) 1105).state.status =
      GameStatus.FINISHED := by
  refine ⟨rfl, rfl, by decide, ?_, ?_⟩ <;> decide

end SlapHard

namespace SlapHard

/-- C3: window resolution — with no attempts the flipper-seat player is the
loser (PENALTY{NO_SLAPS} then SLAP_RESULT{NO_SLAPS}, pile to the loser, turn to
the loser's seat); with attempts and a first-ordered slapper holding cards,
SAME_CARD windows blame the last ordered slapper (LAST_SLAPPER), other windows
blame the last non-slapper in seat order (NON_SLAPPER) when one exists, else
the last ordered slapper (LAST_SLAPPER). -/
theorem resolve_window_loser_rules
    (s : GameState) (eid : String) (fs : Nat)
    (hactive : s.slapWindow.active = true)
    (hres : s.slapWindow.resolved = false)
    (heid : s.slapWindow.eventId = some eid)
    (hfs : s.slapWindow.flipperSeat = some fs)
    (hfslt : fs < s.players.length) :
    (s.slapWindow.attempts = [] →
      ∃ loser, s.players[fs]? = some loser ∧
      (resolveSlapWindowInternal s).2 =
        [EngineEffect.PENALTY loser.userId PenaltyType.NO_SLAPS s.pile.length,
         EngineEffect.SLAP_RESULT eid [] loser.userId SlapResultReason.NO_SLAPS s.pile.length] ∧
      (resolveSlapWindowInternal s).1.currentTurnSeat = fs ∧
      (resolveSlapWindowInternal s).1.players =
        (if 0 < s.pile.length then
          modifyAt s.players fs (fun p => { p with hand := p.hand ++ s.pile })
         else s.players)) ∧
    (∀ firstUid rest seat0,
      (sortedAttempts s).map (fun a => a.userId) = firstUid :: rest →
      playerSeatByUserId s firstUid = some seat0 →
      handLenAt s.players seat0 ≠ 0 →
      (s.slapWindow.reason = some SlapWindowReason.SAME_CARD →
        (resolveSlapWindowInternal s).2 =
          [EngineEffect.SLAP_RESULT eid (firstUid :: rest)
            ((firstUid :: rest).getLastD "") SlapResultReason.LAST_SLAPPER s.pile.length])) ∧
    (∀ firstUid rest seat0,
      (sortedAttempts s).map (fun a => a.userId) = firstUid :: rest →
      playerSeatByUserId s firstUid = some seat0 →
      handLenAt s.players seat0 ≠ 0 →
      s.slapWindow.reason ≠ some SlapWindowReason.SAME_CARD →
      (((s.players.map (fun p => p.userId)).filter
            (fun u => !((firstUid :: rest).contains u))).length ≠ 0 →
        (resolveSlapWindowInternal s).2 =
          [EngineEffect.SLAP_RESULT eid (firstUid :: rest)
            (((s.players.map (fun p => p.userId)).filter
                (fun u => !((firstUid :: rest).contains u))).getLastD "")
            SlapResultReason.NON_SLAPPER s.pile.length]) ∧
      (((s.players.map (fun p => p.userId)).filter
            (fun u => !((firstUid :: rest).contains u))).length = 0 →
        (resolveSlapWindowInternal s).2 =
          [EngineEffect.SLAP_RESULT eid (firstUid :: rest)
            ((firstUid :: rest).getLastD "") SlapResultReason.LAST_SLAPPER s.pile.length])) := by
  refine ⟨?_, ?_, ?_⟩
  · intro hA
    refine ⟨s.players[fs], List.getElem?_eq_getElem hfslt, ?_⟩
    have hsorted : sortedAttempts s = [] := by
      simp [sortedAttempts, hA]
    simp only [resolveSlapWindowInternal]
    rw [if_neg (by simp [hactive, hres, heid])]
    rw [heid]
    simp only [hsorted, List.map_nil]
    rw [hfs]
    have hgetd : (some fs).getD s.currentTurnSeat = fs := rfl
    simp only [hgetd, List.getElem?_eq_getElem hfslt, Option.map_some, Option.getD_some]
    set r := pileToBottom s fs with hr
    have hwin1 : ({ r.1 with currentTurnSeat := fs } : GameState).slapWindow.active = true := by
      simp [hr, pileToBottom, hactive]
    have hwin2 : ({ r.1 with currentTurnSeat := fs } : GameState).slapWindow.resolved = false := by
      simp [hr, pileToBottom, hres]
    have hnorm := normalizeTurnSeat_eq_self_of_active _ hwin1 hwin2
    rw [hnorm]
    refine ⟨rfl, rfl, ?_⟩
    simp [hr, pileToBottom]
  · intro firstUid rest seat0 hord hseat0 hhand hsame
    have hwinner : resolveWinnerCondition s (firstUid :: rest) = none := by
      simp [resolveWinnerCondition, hseat0, hhand]
    simp only [resolveSlapWindowInternal]
    rw [if_neg (by simp [hactive, hres, heid])]
    rw [heid]
    simp only [hord, hwinner]
    have hc : decide (s.slapWindow.reason = some SlapWindowReason.SAME_CARD) = true := by
      simp [hsame]
    rw [if_pos hc, if_pos hc]
  · intro firstUid rest seat0 hord hseat0 hhand hsame
    have hwinner : resolveWinnerCondition s (firstUid :: rest) = none := by
      simp [resolveWinnerCondition, hseat0, hhand]
    constructor
    · intro hns
      simp only [resolveSlapWindowInternal]
      rw [if_neg (by simp [hactive, hres, heid])]
      rw [heid]
      simp only [hord, hwinner]
      have hc : ¬(decide (s.slapWindow.reason = some SlapWindowReason.SAME_CARD) = true) := by
        simp [hsame]
      rw [if_neg hc, if_neg hc, if_pos hns, if_pos hns]
    · intro hns
      simp only [resolveSlapWindowInternal]
      rw [if_neg (by simp [hactive, hres, heid])]
      rw [heid]
      simp only [hord, hwinner]
      have hc : ¬(decide (s.slapWindow.reason = some SlapWindowReason.SAME_CARD) = true) := by
        simp [hsame]
      have hns2 : ¬(((s.players.map (fun p => p.userId)).filter
          (fun u => !((firstUid :: rest).contains u))).length ≠ 0) :=
        not_not_intro hns
      rw [if_neg hc, if_neg hc, if_neg hns2, if_neg hns2]


/-- Witness for C3 at a concrete two-player MATCH-window state: only u1
slapped, so the non-slapper u2 loses with reason NON_SLAPPER. -/
theorem resolve_window_loser_rules_witness :
    (resolveSlapWindowInternal stateMatchWindow).2 =
      [EngineEffect.SLAP_RESULT "e1" ["u1"] "u2" SlapResultReason.NON_SLAPPER 1] := by
  have h := resolve_window_loser_rules stateMatchWindow "e1" 0 rfl rfl rfl rfl (by decide)
  have h2 := (h.2.2 "u1" [] 0 (by decide) (by decide) (by decide) (by decide)).1 (by decide)
  exact h2

end SlapHard

namespace SlapHard

lemma chListLe_total : ∀ as bs : List Char, chListLe as bs = true ∨ chListLe bs as = true := by
  intro as
  induction as with
  | nil => intro bs; left; rfl
  | cons a as ih =>
    intro bs
    cases bs with
    | nil => right; rfl
    | cons b bs =>
      by_cases hab : a < b
      · left; simp [chListLe, hab]
      · by_cases hba : b < a
        · right; simp [chListLe, hba, asymm hba]
        · rcases ih bs with h | h
          · left; simp [chListLe, hab, hba, h]
          · right; simp [chListLe, hab, hba, h]

lemma chListLe_trans : ∀ as bs cs : List Char,
    chListLe as bs = true → chListLe bs cs = true → chListLe as cs = true := by
  intro as
  induction as with
  | nil => intro bs cs _ _; rfl
  | cons a as ih =>
    intro bs cs h1 h2
    cases bs with
    | nil => simp [chListLe] at h1
    | cons b bs =>
      cases cs with
      | nil => simp [chListLe] at h2
      | cons c cs =>
        simp only [chListLe] at h1 h2 ⊢
        by_cases hab : a < b
        · by_cases hbc : b < c
          · simp [lt_trans hab hbc]
          · by_cases hcb : c < b
            · simp [chListLe, hcb, asymm hcb] at h2
            · have hbc' : b = c := le_antisymm (not_lt.mp hcb) (not_lt.mp hbc)
              simp [hbc' ▸ hab]
        · by_cases hba : b < a
          · simp [hab, hba] at h1
          · have hba' : a = b := le_antisymm (not_lt.mp hba) (not_lt.mp hab)
            subst hba'
            by_cases hac : a < c
            · simp [hac]
            · by_cases hca : c < a
              · simp [hca, asymm hca] at h2
              · have : a = c := le_antisymm (not_lt.mp hca) (not_lt.mp hac)
                subst this
                simp [hab] at h1 h2 ⊢
                exact ih bs cs h1 h2

lemma strLe_total (a b : String) : strLe a b = true ∨ strLe b a = true :=
  chListLe_total a.data b.data

lemma strLe_trans {a b c : String} (h1 : strLe a b = true) (h2 : strLe b c = true) :
    strLe a c = true :=
  chListLe_trans a.data b.data c.data h1 h2

lemma lexStep_total (ka kb : Int) (r1 r2 : Bool) (h : r1 = true ∨ r2 = true) :
    (if ka ≠ kb then decide (ka < kb) else r1) = true ∨
    (if kb ≠ ka then decide (kb < ka) else r2) = true := by
  split_ifs with h1 h2 h3 <;> simp_all

lemma lexStep_trans (k1 k2 k3 : Int) (r12 r23 r13 : Bool)
    (h : r12 = true → r23 = true → r13 = true)
    (h12 : (if k1 ≠ k2 then decide (k1 < k2) else r12) = true)
    (h23 : (if k2 ≠ k3 then decide (k2 < k3) else r23) = true) :
    (if k1 ≠ k3 then decide (k1 < k3) else r13) = true := by
  split_ifs at h12 h23 ⊢ with h1 h2 h3 <;> simp_all <;> omega

lemma windowSortLe_total (s : GameState) (a b : SlapAttempt) :
    windowSortLe s a b = true ∨ windowSortLe s b a = true := by
  unfold windowSortLe slapAttemptLeB
  by_cases hsc : decide (s.slapWindow.reason = some SlapWindowReason.SAME_CARD) = true
  · rw [if_pos hsc, if_pos hsc]
    exact lexStep_total _ _ _ _ (lexStep_total _ _ _ _ (strLe_total _ _))
  · rw [if_neg hsc, if_neg hsc]
    dsimp only
    exact lexStep_total _ _ _ _ (lexStep_total _ _ _ _ (lexStep_total _ _ _ _ (strLe_total _ _)))

lemma windowSortLe_trans (s : GameState) (a b c : SlapAttempt)
    (h1 : windowSortLe s a b = true) (h2 : windowSortLe s b c = true) :
    windowSortLe s a c = true := by
  unfold windowSortLe slapAttemptLeB at h1 h2 ⊢
  by_cases hsc : decide (s.slapWindow.reason = some SlapWindowReason.SAME_CARD) = true
  · rw [if_pos hsc] at h1 h2 ⊢
    exact lexStep_trans _ _ _ _ _ _
      (lexStep_trans _ _ _ _ _ _ (fun p q => strLe_trans p q)) h1 h2
  · rw [if_neg hsc] at h1 h2 ⊢
    dsimp only at h1 h2 ⊢
    exact lexStep_trans _ _ _ _ _ _
      (lexStep_trans _ _ _ _ _ _
        (lexStep_trans _ _ _ _ _ _ (fun p q => strLe_trans p q))) h1 h2

end SlapHard

namespace SlapHard

/-- Ordering of attempts as the spec words it: for SAME_CARD windows strictly
by `receivedAtServerTime`, then `clientSeq`, then `userId`; otherwise first by
the computed `reactionMs`, then `receivedAtServerTime`, then `clientSeq`, then
`userId`. -/
def specAttemptLe (sameCard : Bool) (t0 minHuman winMs : Int) (a b : SlapAttempt) : Prop :=
  if sameCard then
    a.receivedAtServerTime < b.receivedAtServerTime ∨
      (a.receivedAtServerTime = b.receivedAtServerTime ∧
        (a.clientSeq < b.clientSeq ∨
          (a.clientSeq = b.clientSeq ∧ strLe a.userId b.userId = true)))
  else
    resolveReactionMs a.clientTime a.offsetMs t0 minHuman winMs <
        resolveReactionMs b.clientTime b.offsetMs t0 minHuman winMs ∨
      (resolveReactionMs a.clientTime a.offsetMs t0 minHuman winMs =
          resolveReactionMs b.clientTime b.offsetMs t0 minHuman winMs ∧
        (a.receivedAtServerTime < b.receivedAtServerTime ∨
          (a.receivedAtServerTime = b.receivedAtServerTime ∧
            (a.clientSeq < b.clientSeq ∨
              (a.clientSeq = b.clientSeq ∧ strLe a.userId b.userId = true)))))

lemma slapAttemptLeB_iff_spec (sameCard : Bool) (t0 minHuman winMs : Int) (a b : SlapAttempt) :
    slapAttemptLeB sameCard t0 minHuman winMs a b = true ↔
      specAttemptLe sameCard t0 minHuman winMs a b := by
  unfold slapAttemptLeB specAttemptLe
  cases sameCard
  · simp only [Bool.false_eq_true, if_false]
    split_ifs <;> constructor <;> intro h <;> simp_all
  · simp only [if_true]
    split_ifs <;> constructor <;> intro h <;> simp_all

end SlapHard

namespace SlapHard

/-- C4: the ordered list inside the SLAP_RESULT effect is the attempts list
sorted by the spec's keys — for SAME_CARD by receivedAtServerTime, clientSeq,
userId; otherwise by reactionMs first — as a permutation of the recorded
attempts, pairwise ordered by that key order. -/
theorem slap_result_ordering
    (s : GameState) (eid : String)
    (hactive : s.slapWindow.active = true)
    (hres : s.slapWindow.resolved = false)
    (heid : s.slapWindow.eventId = some eid)
    (hne : s.slapWindow.attempts ≠ []) :
    (sortedAttempts s).Perm s.slapWindow.attempts ∧
    (sortedAttempts s).Pairwise
      (specAttemptLe (decide (s.slapWindow.reason = some SlapWindowReason.SAME_CARD))
        (s.slapWindow.startServerTime.getD 0) s.config.minHumanMs
        (s.slapWindow.slapWindowMs.getD 0)) ∧
    ∃ loser reason rest2,
      (resolveSlapWindowInternal s).2 =
        EngineEffect.SLAP_RESULT eid ((sortedAttempts s).map (fun a => a.userId)) loser reason
          s.pile.length :: rest2 := by
  have hperm : (sortedAttempts s).Perm s.slapWindow.attempts :=
    List.perm_insertionSort _ _
  refine ⟨hperm, ?_, ?_⟩
  · haveI : IsTotal SlapAttempt (fun a b => windowSortLe s a b = true) :=
      ⟨fun a b => windowSortLe_total s a b⟩
    haveI : IsTrans SlapAttempt (fun a b => windowSortLe s a b = true) :=
      ⟨fun a b c => windowSortLe_trans s a b c⟩
    have hs := List.sorted_insertionSort (fun a b => windowSortLe s a b = true)
      s.slapWindow.attempts
    refine hs.imp ?_
    intro a b hab
    exact (slapAttemptLeB_iff_spec _ _ _ _ a b).mp hab
  · obtain ⟨x, xs, hx⟩ : ∃ x xs, sortedAttempts s = x :: xs := by
      cases h : sortedAttempts s with
      | nil =>
        exfalso
        exact hne ((h ▸ hperm).symm.eq_nil)
      | cons x xs => exact ⟨x, xs, rfl⟩
    simp only [resolveSlapWindowInternal]
    rw [if_neg (by simp [hactive, hres, heid])]
    rw [heid]
    simp only [hx, List.map_cons]
    cases hw : resolveWinnerCondition s (x.userId :: xs.map (fun a => a.userId)) with
    | some w =>
      simp only [hw]
      exact ⟨_, _, _, rfl⟩
    | none =>
      simp only [hw]
      exact ⟨_, _, _, rfl⟩

end SlapHard

namespace SlapHard

/-- Witness for C4: in the pushed two-attempt MATCH window the ordered list is
[u1, u2] by reaction time and the SLAP_RESULT carries it. -/
theorem slap_result_ordering_witness :
    (sortedAttempts stateMatchWindowPushed).Perm stateMatchWindowPushed.slapWindow.attempts ∧
    (sortedAttempts stateMatchWindowPushed).Pairwise
      (specAttemptLe
        (decide (stateMatchWindowPushed.slapWindow.reason = some SlapWindowReason.SAME_CARD))
        (stateMatchWindowPushed.slapWindow.startServerTime.getD 0)
        stateMatchWindowPushed.config.minHumanMs
        (stateMatchWindowPushed.slapWindow.slapWindowMs.getD 0)) ∧
    (resolveSlapWindowInternal stateMatchWindowPushed).2 =
      [EngineEffect.SLAP_RESULT "e1"
        ((sortedAttempts stateMatchWindowPushed).map (fun a => a.userId)) "u2"
        SlapResultReason.LAST_SLAPPER 1] := by
  have h := slap_result_ordering stateMatchWindowPushed "e1" rfl rfl rfl (by decide)
  refine ⟨h.1, h.2.1, ?_⟩
  decide

end SlapHard
